import Mathlib

/-!
Verification of the journey-stitching logic of the IMWlms repository
(`src/update_journey_data.py`, with `src/data_fetch.py` as context).

Embedding conventions.  Timestamps are modelled as minute counts: an absolute
upstream timestamp becomes an absolute minute count `t : Nat`, and an "HH:MM"
display value becomes its clock value `t % 1440` (minutes per day).  The
`astimezone(LONDON_TIMEZONE)` conversion of `format_time` is modelled as adding
a fixed clock offset `tz` modulo one day; none of the properties below depend
on the concrete offset.  Every pseudorandom draw that the source takes from
Python's `random` module is passed in explicitly as an input, constrained to
the range the corresponding `randint` / `random` / `choice` call can produce.
`datetime.replace(hour, minute)` onto today's date followed by minute
arithmetic only ever feeds clock displays, transfer intervals and durations,
all of which are independent of the date component, so the date is dropped.
-/

namespace IMWlms

/-- `MAX_JOURNEYS_TO_SAVE` from the configuration block of
`update_journey_data.py`. -/
def MAX_JOURNEYS_TO_SAVE : Nat := 3

/-- The `STATIONS` dictionary of `update_journey_data.py`. -/
def STATIONS : List (String × String) :=
  [("SRC", "Streatham Common Rail Station"),
   ("CLJ", "Clapham Junction Rail Station"),
   ("IMW", "Imperial Wharf Rail Station")]

/-- Python `dt_string.replace("Z", "+00:00")` as performed inside
`format_time` (line 47), character by character. -/
def replaceZChars : List Char → List Char
  | [] => []
  | c :: rest =>
    if c = 'Z' then '+' :: '0' :: '0' :: ':' :: '0' :: '0' :: replaceZChars rest
    else c :: replaceZChars rest

/-- String form of `replaceZChars`. -/
def replaceZ (s : String) : String := ⟨replaceZChars s.data⟩

/-- Numeric value of a decimal digit character. -/
def charDigit (c : Char) : Nat := c.toNat - 48

/-- Model of `datetime.fromisoformat` restricted to the clock-time content:
it accepts a string whose head has the shape `YYYY-MM-DD` + (`T` or space) +
`HH:MM` with in-range month, day, hour and minute fields (every string
`fromisoformat` accepts has such a head) and returns the clock time in
minutes; any other string is rejected with `none`. -/
def parseIsoClock (s : String) : Option Nat :=
  let cs := s.data
  let ch := fun i => cs.getD i '#'
  if 16 ≤ cs.length
      ∧ ((ch 0).isDigit ∧ (ch 1).isDigit ∧ (ch 2).isDigit ∧ (ch 3).isDigit)
      ∧ ch 4 = '-' ∧ ((ch 5).isDigit ∧ (ch 6).isDigit)
      ∧ ch 7 = '-' ∧ ((ch 8).isDigit ∧ (ch 9).isDigit)
      ∧ (ch 10 = 'T' ∨ ch 10 = ' ')
      ∧ ((ch 11).isDigit ∧ (ch 12).isDigit) ∧ ch 13 = ':'
      ∧ ((ch 14).isDigit ∧ (ch 15).isDigit)
      ∧ 1 ≤ charDigit (ch 5) * 10 + charDigit (ch 6)
      ∧ charDigit (ch 5) * 10 + charDigit (ch 6) ≤ 12
      ∧ 1 ≤ charDigit (ch 8) * 10 + charDigit (ch 9)
      ∧ charDigit (ch 8) * 10 + charDigit (ch 9) ≤ 31
      ∧ charDigit (ch 11) * 10 + charDigit (ch 12) < 24
      ∧ charDigit (ch 14) * 10 + charDigit (ch 15) < 60
  then some ((charDigit (ch 11) * 10 + charDigit (ch 12)) * 60
             + (charDigit (ch 14) * 10 + charDigit (ch 15)))
  else none

/-- Zero-padded two-digit rendering used by `strftime` for hours and
minutes. -/
def pad2 (n : Nat) : String := (if n < 10 then "0" else "") ++ toString n

/-- `strftime("%H:%M")` of a clock value in minutes. -/
def clockStr (m : Nat) : String := pad2 (m / 60) ++ ":" ++ pad2 (m % 60)

/-- `format_time` of `update_journey_data.py` (lines 43-53) over strings: on
success the parsed clock time, shifted by the London zone offset `tz`, is
rendered as "HH:MM"; when parsing fails, the `except` branch returns the
input string unchanged. -/
def format_time (tz : Nat) (s : String) : String :=
  match parseIsoClock (replaceZ s) with
  | some t => clockStr ((t + tz) % 1440)
  | none => s

/-- `format_time` on the minute model of a parseable absolute timestamp: the
London clock display of an absolute minute count. -/
def formatClock (tz t : Nat) : Nat := (t + tz) % 1440

/-- The day-wraparound clock difference: both the inline total-duration
computation of `process_tfl_journeys` (lines 281-291, via
`datetime.replace` plus an added day when the arrival clock precedes the
departure clock) and the `calculate_duration_str` core of the mock variant
reduce to this on minute counts. -/
def wrapDiff (dep arr : Nat) : Nat :=
  (if arr < dep then arr + 1440 else arr) - dep

/-- `calculate_duration_str` of the mock variant (lines 354-361), kept on
`Int` exactly as Python's `timedelta` arithmetic: one day is added to
`end_time` when it precedes `start_time`, then the difference in minutes is
taken (the source renders the number as "N min"). -/
def calculate_duration_mins (start_time end_time : Int) : Int :=
  (if end_time < start_time then end_time + 1440 else end_time) - start_time

/-- Rendering "N min" of `calculate_duration_str` (line 57). -/
def durationStr (n : Nat) : String := toString n ++ " min"

/-- A raw TfL leg as read by `update_journey_data.py`: the fields the script
accesses, with `Option` for the keys read through `.get` that may be absent.
`duration` is read by `map_leg_to_json` but never used afterwards. -/
structure RawLeg where
  duration : Nat
  departureTime : Nat
  scheduledDepartureTime : Option Nat
  arrivalTime : Nat
  arrivalCrs : Option String
  departureName : Option String
  arrivalName : Option String
  platformName : Option String
  instructionSummary : Option String
  isCancelled : Bool
deriving DecidableEq, Repr

/-- A raw TfL journey: its `duration` key (absent keys give `none`) and its
`legs` list. -/
structure RawJourney where
  duration : Option Nat
  legs : List RawLeg
deriving DecidableEq, Repr

/-- `get_status_from_leg` (lines 59-71): `Cancelled` when the flag is set,
`Delayed` when both departure fields are present and differ, `On Time`
otherwise. -/
def get_status_from_leg (leg : RawLeg) : String :=
  if leg.isCancelled then "Cancelled"
  else
    match leg.scheduledDepartureTime with
    | some s => if s ≠ leg.departureTime then "Delayed" else "On Time"
    | none => "On Time"

/-- `get_platform_info` (lines 73-76); the two optional platform keys of the
departure point are modelled as one optional field. -/
def get_platform_info (leg : RawLeg) : String := leg.platformName.getD "TBC"

/-- A leg dictionary as produced by `map_leg_to_json` or
`generate_mock_leg`; time fields hold the clock value of the stored "HH:MM"
display string. -/
structure Leg where
  origin : String
  destination : String
  departure : Nat
  scheduled_departure : Nat
  arrival : Nat
  platform : String
  operator : String
  status : String
deriving DecidableEq, Repr

/-- `map_leg_to_json` (lines 197-214). -/
def map_leg_to_json (tz : Nat) (leg : RawLeg) (origin_code dest_code : String) : Leg :=
  { origin := leg.departureName.getD ((STATIONS.lookup origin_code).getD origin_code)
    destination := leg.arrivalName.getD ((STATIONS.lookup dest_code).getD dest_code)
    departure := formatClock tz leg.departureTime
    scheduled_departure := formatClock tz (leg.scheduledDepartureTime.getD leg.departureTime)
    arrival := formatClock tz leg.arrivalTime
    platform := get_platform_info leg
    operator := leg.instructionSummary.getD "Unknown Operator"
    status := get_status_from_leg leg }

/-- A connection dictionary of `fetch_clj_connections` / the mock connection
loop.  `transferTime` holds the numeric value N of the stored "N min" string
(the rendering `durationStr` is injective, so nothing is lost). -/
structure Conn where
  transferTime : Nat
  second_leg : Leg
deriving DecidableEq, Repr

/-- The pseudorandom draws consumed by one call of `fetch_clj_connections`:
per loop index `i`, the `randint(7, 10)` stagger, the `randint(4, 6)` run
time, and the `random.choice` platform and operator; `cancelFirst` is the
outcome of `random.random() < 0.3` for the first connection. -/
structure ConnRand where
  stagger : Nat → Nat
  run : Nat → Nat
  cancelFirst : Bool
  platform : Nat → String
  operator : Nat → String

/-- The draws lie in the ranges the `randint` calls can produce. -/
def ConnRand.valid (r : ConnRand) : Prop :=
  ∀ i < 3, 7 ≤ r.stagger i ∧ r.stagger i ≤ 10 ∧ 4 ≤ r.run i ∧ r.run i ≤ 6

instance (r : ConnRand) : Decidable r.valid := by
  unfold ConnRand.valid; infer_instance

/-- One connection generated by `fetch_clj_connections` (lines 155-195) at
loop index `i`: departure `arrival_dt + 3 + i * stagger`, arrival after the
run time, transfer stored as the minute difference to `arrival_dt`, the
first connection cancelled when the 0.3-probability draw fired. -/
def clj_connection (r : ConnRand) (arrival_dt : Nat) (i : Nat) : Conn :=
  let dep_dt := arrival_dt + 3 + i * r.stagger i
  let arr_dt := dep_dt + r.run i
  { transferTime := dep_dt - arrival_dt
    second_leg :=
      { origin := "Clapham Junction Rail Station"
        destination := "Imperial Wharf Rail Station"
        departure := dep_dt % 1440
        scheduled_departure := dep_dt % 1440
        arrival := arr_dt % 1440
        platform := r.platform i
        operator := r.operator i
        status := if i = 0 ∧ r.cancelFirst = true then "Cancelled" else "On Time" } }

/-- `fetch_clj_connections` (lines 155-195): the three loop iterations. -/
def fetch_clj_connections (r : ConnRand) (arrival_dt : Nat) : List Conn :=
  [clj_connection r arrival_dt 0, clj_connection r arrival_dt 1, clj_connection r arrival_dt 2]

/-- Arrival time and total-duration string of a One Change journey as
computed by `process_tfl_journeys` (lines 274-295): the first non-cancelled
connection supplies both; if every connection is cancelled the first
connection supplies the arrival and the duration is the string "Unknown".
`none` models the `IndexError` the source would raise on an empty list (the
list produced by `fetch_clj_connections` always has three elements). -/
def journey_metrics (dep : Nat) (conns : List Conn) : Option (Nat × String) :=
  match conns.find? (fun c => c.second_leg.status != "Cancelled") with
  | some c => some (c.second_leg.arrival, durationStr (wrapDiff dep c.second_leg.arrival))
  | none =>
    match conns with
    | [] => none
    | c0 :: _ => some (c0.second_leg.arrival, "Unknown")

/-- A journey dictionary as appended to `self.journeys` by
`process_tfl_journeys` (lines 246-255 and 297-306). -/
structure Journey where
  type : String
  first_leg : Leg
  connections : List Conn
  totalDuration : String
  arrivalTime : Nat
  departureTime : Nat
  segment_id : Nat
  live_updated_at : String
deriving DecidableEq, Repr

/-- The keys of the journey dictionary literals built by
`process_tfl_journeys` (lines 297-306 for One Change; the Direct literal of
lines 246-255 has the same keys). -/
def journeyDictKeys : List String :=
  ["type", "first_leg", "connections", "totalDuration", "arrivalTime",
   "departureTime", "segment_id", "live_updated_at"]

/-- Rendering of `calculate_duration_str(raw_journey.get('duration'))`
(line 250): a missing key prints as Python `None`. -/
def rawDurationStr : Option Nat → String
  | some n => toString n ++ " min"
  | none => "None min"

/-- The loop of `process_tfl_journeys` (lines 217-309).  State: the raw
journeys still to process, the journeys collected so far, the
`processed_departures` set, the `segment_id_counter`, and the index of the
next unused packet of pseudorandom draws (`rnd k` is consumed by the `k`-th
call of `fetch_clj_connections`).  `live` is the constant
`live_updated_at` string of the run. -/
def process_aux (tz : Nat) (live : String) (rnd : Nat → ConnRand) :
    List RawJourney → List Journey → List Nat → Nat → Nat → List Journey
  | [], js, _, _, _ => js
  | rj :: rest, js, seen, sid, k =>
    if MAX_JOURNEYS_TO_SAVE ≤ js.length then js
    else
      match rj.legs with
      | [] => process_aux tz live rnd rest js seen sid k
      | leg1 :: _ =>
        if formatClock tz leg1.departureTime ∈ seen then
          process_aux tz live rnd rest js seen sid k
        else
          if rj.legs.length = 1 ∧ leg1.arrivalCrs = some "IMW" then
            process_aux tz live rnd rest
              (js ++ [{ type := "Direct"
                        first_leg := map_leg_to_json tz leg1 "SRC" "IMW"
                        connections := []
                        totalDuration := rawDurationStr rj.duration
                        arrivalTime := (map_leg_to_json tz leg1 "SRC" "IMW").arrival
                        departureTime := (map_leg_to_json tz leg1 "SRC" "IMW").departure
                        segment_id := sid, live_updated_at := live }])
              (formatClock tz leg1.departureTime :: seen) (sid + 1) k
          else if leg1.arrivalCrs = some "CLJ" then
            match journey_metrics (map_leg_to_json tz leg1 "SRC" "CLJ").departure
                (fetch_clj_connections (rnd k) (map_leg_to_json tz leg1 "SRC" "CLJ").arrival) with
            | some md =>
              process_aux tz live rnd rest
                (js ++ [{ type := "One Change"
                          first_leg := map_leg_to_json tz leg1 "SRC" "CLJ"
                          connections := fetch_clj_connections (rnd k)
                            (map_leg_to_json tz leg1 "SRC" "CLJ").arrival
                          totalDuration := md.2, arrivalTime := md.1
                          departureTime := (map_leg_to_json tz leg1 "SRC" "CLJ").departure
                          segment_id := sid, live_updated_at := live }])
                (formatClock tz leg1.departureTime :: seen) (sid + 1) (k + 1)
            | none =>
              process_aux tz live rnd rest js
                (formatClock tz leg1.departureTime :: seen) sid (k + 1)
          else
            process_aux tz live rnd rest js
              (formatClock tz leg1.departureTime :: seen) sid k

/-- `process_tfl_journeys` run from the freshly constructed harvester:
empty journey list, empty `processed_departures`, counter 1. -/
def process_tfl_journeys (tz : Nat) (live : String) (rnd : Nat → ConnRand)
    (raws : List RawJourney) : List Journey :=
  process_aux tz live rnd raws [] [] 1 0

/-- `save_rail_data` (lines 312-330): the journeys actually persisted,
truncated by the `[:MAX_JOURNEYS_TO_SAVE]` slice. -/
def save_rail_data (tz : Nat) (live : String) (rnd : Nat → ConnRand)
    (raws : List RawJourney) : List Journey :=
  (process_tfl_journeys tz live rnd raws).take MAX_JOURNEYS_TO_SAVE

/-- The departure-display key fed into the `processed_departures` set
(lines 233-239): the first leg's departure display time; a journey with no
legs has no key. -/
def dedup_key (tz : Nat) (rj : RawJourney) : Option Nat :=
  rj.legs.head?.map (fun l => formatClock tz l.departureTime)

/-- The record-level deduplication of `process_tfl_journeys` in isolation
(lines 223-239): keep the first raw journey for each departure display key,
silently dropping later journeys with a key already seen; journeys with no
legs are skipped. -/
def leg_dedup (tz : Nat) : List RawJourney → List Nat → List RawJourney
  | [], _ => []
  | rj :: rest, seen =>
    match dedup_key tz rj with
    | none => leg_dedup tz rest seen
    | some kk =>
      if kk ∈ seen then leg_dedup tz rest seen
      else rj :: leg_dedup tz rest (kk :: seen)

/-- Modelled from the spec: the Leg Deduplicator of section 4.2, keyed by
the triple (normalized departure instant, normalized arrival instant,
service identifier), with the service identifier synthesized from the
operator name as section 3 allows; the first record in input order wins on a
triple collision and records not colliding on the triple are all kept.
Stated for comparison with `leg_dedup` above, which is what the source
does. -/
def leg_dedup_spec (tz : Nat) :
    List RawJourney → List (Nat × Nat × Option String) → List RawJourney
  | [], _ => []
  | rj :: rest, seen =>
    match rj.legs.head? with
    | none => leg_dedup_spec tz rest seen
    | some l =>
      let kk := (formatClock tz l.departureTime,
                 formatClock tz l.arrivalTime, l.instructionSummary)
      if kk ∈ seen then leg_dedup_spec tz rest seen
      else rj :: leg_dedup_spec tz rest (kk :: seen)

/-- The pseudorandom draws consumed by one One-Change iteration of
`MockRailData.find_journeys`: the `randint(4, 7)` base offset of the first
connection, and per connection index `j` the `randint(4, 6)` run time and the
`get_random_status` / platform / operator choices of
`generate_mock_leg`. -/
structure MockRand where
  baseOff : Nat
  dur2 : Nat → Nat
  status : Nat → String
  platform : Nat → String
  operator : Nat → String

/-- `generate_mock_leg` (lines 379-396) for connection index `j`: departure
and arrival displays of a leg departing at `departure_dt` and running
`duration_mins` minutes. -/
def generate_mock_leg (m : MockRand) (j : Nat) (origin_code dest_code : String)
    (departure_dt duration_mins : Nat) : Leg :=
  { origin := (STATIONS.lookup origin_code).getD origin_code
    destination := (STATIONS.lookup dest_code).getD dest_code
    departure := departure_dt % 1440
    scheduled_departure := departure_dt % 1440
    arrival := (departure_dt + duration_mins) % 1440
    platform := m.platform j
    operator := m.operator j
    status := m.status j }

/-- One iteration `j` of the connection loop of `MockRailData.find_journeys`
(lines 470-490): a connection leaving CLJ at `clj_arr_dt + baseOff + j * 7`,
its transfer computed by `calculate_duration_str` on the two absolute
instants. -/
def mock_connection (m : MockRand) (clj_arr_dt : Nat) (j : Nat) : Conn :=
  { transferTime := wrapDiff clj_arr_dt (clj_arr_dt + m.baseOff + j * 7)
    second_leg := generate_mock_leg m j "CLJ" "IMW"
      (clj_arr_dt + m.baseOff + j * 7) (m.dur2 j) }

/-- The connection loop of `MockRailData.find_journeys` (lines 470-490):
three connections leaving CLJ, the first `baseOff` minutes after the first
leg's arrival `clj_arr_dt`, staggered 7 minutes apart. -/
def mock_connections (m : MockRand) (clj_arr_dt : Nat) : List Conn :=
  [mock_connection m clj_arr_dt 0, mock_connection m clj_arr_dt 1,
   mock_connection m clj_arr_dt 2]

/-- `get_random_status` of the mock variant (lines 363-365): the
`random.choice` index is the explicit argument. -/
def get_random_status : Fin 3 → String
  | ⟨0, _⟩ => "On Time"
  | ⟨1, _⟩ => "Delayed 5 min"
  | ⟨2, _⟩ => "Cancelled"

/-- A fixed packet of draws the `randint` calls can produce: stagger 7,
run time 4, no cancellation. -/
def r7 : ConnRand :=
  { stagger := fun _ => 7, run := fun _ => 4, cancelFirst := false
    platform := fun _ => "1", operator := fun _ => "Southern" }

/-- As `r7` but with stagger 8: a second outcome of the same
`randint(7, 10)` calls. -/
def r8 : ConnRand := { r7 with stagger := fun _ => 8 }

/-- A fixed packet of mock draws with base offset 5 (a `randint(4, 7)`
outcome). -/
def m5 : MockRand :=
  { baseOff := 5, dur2 := fun _ => 4, status := fun _ => "On Time"
    platform := fun _ => "6", operator := fun _ => "Southern" }

/-- A throwaway connection used as the `headD` default in statements about
lists that are provably non-empty. -/
def cDefault : Conn :=
  { transferTime := 0
    second_leg := { origin := "", destination := "", departure := 0
                    scheduled_departure := 0, arrival := 0, platform := ""
                    operator := "", status := "" } }

/-- A connection whose second leg is cancelled, departing the interchange
at clock 615 and arriving at 618. -/
def cCan : Conn :=
  { transferTime := 3
    second_leg := { origin := "Clapham Junction Rail Station"
                    destination := "Imperial Wharf Rail Station"
                    departure := 615, scheduled_departure := 615, arrival := 618
                    platform := "3", operator := "Southern"
                    status := "Cancelled" } }

/-- A raw direct journey departing at absolute minute `dep`. -/
def rawDirect (dep : Nat) : RawJourney :=
  { duration := some 35
    legs := [{ duration := 35, departureTime := dep
               scheduledDepartureTime := some dep
               arrivalTime := dep + 35, arrivalCrs := some "IMW"
               departureName := some "Streatham Common Rail Station"
               arrivalName := some "Imperial Wharf Rail Station"
               platformName := some "2"
               instructionSummary := some "Southern Service"
               isCancelled := false }] }

/-- A raw one-change journey whose first leg departs at absolute minute
`dep` and arrives at Clapham Junction at absolute minute `arr`, run by the
operator `op`. -/
def rawChange (dep arr : Nat) (op : String) : RawJourney :=
  { duration := some 40
    legs := [{ duration := 12, departureTime := dep
               scheduledDepartureTime := some dep
               arrivalTime := arr, arrivalCrs := some "CLJ"
               departureName := some "Streatham Common Rail Station"
               arrivalName := some "Clapham Junction Rail Station"
               platformName := some "2"
               instructionSummary := some op
               isCancelled := false }] }

/-- A cancelled raw leg. -/
def legCan : RawLeg :=
  { duration := 12, departureTime := 600, scheduledDepartureTime := some 600
    arrivalTime := 612, arrivalCrs := some "CLJ"
    departureName := some "Streatham Common Rail Station"
    arrivalName := some "Clapham Junction Rail Station"
    platformName := some "2", instructionSummary := some "Southern"
    isCancelled := true }

/-- A raw leg whose actual departure 620 differs from its scheduled
departure 615. -/
def legDel : RawLeg :=
  { legCan with isCancelled := false, departureTime := 620,
                scheduledDepartureTime := some 615 }

/-- A raw leg departing exactly as scheduled. -/
def legOT : RawLeg := { legCan with isCancelled := false }

/-- The processing loop never grows the journey list beyond
`MAX_JOURNEYS_TO_SAVE`: the break guard runs before every append. -/
theorem process_aux_length_le (tz : Nat) (live : String) (rnd : Nat → ConnRand)
    (raws : List RawJourney) :
    ∀ (js : List Journey) (seen : List Nat) (sid k : Nat),
      js.length ≤ MAX_JOURNEYS_TO_SAVE →
      (process_aux tz live rnd raws js seen sid k).length ≤ MAX_JOURNEYS_TO_SAVE := by
  induction raws with
  | nil => intro js seen sid k h; simpa [process_aux] using h
  | cons rj rest ih =>
    intro js seen sid k h
    rw [process_aux]
    split
    · exact h
    next hlen =>
      split
      · exact ih _ _ _ _ h
      next leg1 tail _ =>
        split
        · exact ih _ _ _ _ h
        · split
          · apply ih
            simp only [MAX_JOURNEYS_TO_SAVE] at hlen ⊢
            simp only [List.length_append, List.length_singleton]
            omega
          · split
            · split
              · apply ih
                simp only [MAX_JOURNEYS_TO_SAVE] at hlen ⊢
                simp only [List.length_append, List.length_singleton]
                omega
              · exact ih _ _ _ _ h
            · exact ih _ _ _ _ h

/-- The processing loop assigns `segment_id` values continuing the sequence
`1..n` carried by the accumulator. -/
theorem process_aux_ids (tz : Nat) (live : String) (rnd : Nat → ConnRand)
    (raws : List RawJourney) :
    ∀ (js : List Journey) (seen : List Nat) (sid k : Nat),
      js.map (fun j => j.segment_id) = List.range' 1 js.length →
      sid = js.length + 1 →
      (process_aux tz live rnd raws js seen sid k).map (fun j => j.segment_id)
        = List.range' 1 (process_aux tz live rnd raws js seen sid k).length := by
  induction raws with
  | nil => intro js seen sid k hmap hsid; simpa [process_aux] using hmap
  | cons rj rest ih =>
    intro js seen sid k hmap hsid
    rw [process_aux]
    split
    · exact hmap
    next hlen =>
      split
      · exact ih _ _ _ _ hmap hsid
      next leg1 tail _ =>
        split
        · exact ih _ _ _ _ hmap hsid
        · split
          · apply ih
            · rw [List.map_append, hmap, List.length_append]
              simp only [List.map_cons, List.map_nil, List.length_singleton]
              rw [List.range'_1_concat]
              simp [hsid, Nat.add_comm]
            · simp [hsid, List.length_append]
          · split
            · split
              · apply ih
                · rw [List.map_append, hmap, List.length_append]
                  simp only [List.map_cons, List.map_nil, List.length_singleton]
                  rw [List.range'_1_concat]
                  simp [hsid, Nat.add_comm]
                · simp [hsid, List.length_append]
              · exact ih _ _ _ _ hmap hsid
            · exact ih _ _ _ _ hmap hsid

/-- Taking a prefix of `range'` yields a `range'`. -/
theorem take_range'_min : ∀ (n m s : Nat), (List.range' s n).take m = List.range' s (min m n)
  | 0, m, s => by simp
  | n + 1, 0, s => by simp
  | n + 1, m + 1, s => by
    rw [List.range'_succ, List.take_succ_cons, take_range'_min n m (s + 1),
      Nat.succ_min_succ, List.range'_succ]

/-- Every record kept by `leg_dedup` has a key, and that key was not in the
seen set the call started from. -/
theorem leg_dedup_mem_key (tz : Nat) :
    ∀ (l : List RawJourney) (seen : List Nat) (x : RawJourney),
      x ∈ leg_dedup tz l seen → ∃ kx, dedup_key tz x = some kx ∧ kx ∉ seen := by
  intro l
  induction l with
  | nil => intro seen x hx; simp [leg_dedup] at hx
  | cons rj rest ih =>
    intro seen x hx
    rw [leg_dedup] at hx
    cases hk : dedup_key tz rj with
    | none => rw [hk] at hx; exact ih seen x hx
    | some kk =>
      rw [hk] at hx
      have hx' : x ∈ (if kk ∈ seen then leg_dedup tz rest seen
          else rj :: leg_dedup tz rest (kk :: seen)) := hx
      by_cases hs : kk ∈ seen
      · rw [if_pos hs] at hx'; exact ih seen x hx'
      · rw [if_neg hs] at hx'
        rcases List.mem_cons.mp hx' with h | h
        · subst h; exact ⟨kk, hk, hs⟩
        · obtain ⟨kx, hkx, hnot⟩ := ih (kk :: seen) x h
          exact ⟨kx, hkx, fun hmem => hnot (List.mem_cons_of_mem _ hmem)⟩

/-- Any two records kept by `leg_dedup` have different keys. -/
theorem leg_dedup_pairwise (tz : Nat) :
    ∀ (l : List RawJourney) (seen : List Nat),
      (leg_dedup tz l seen).Pairwise (fun a b => dedup_key tz a ≠ dedup_key tz b) := by
  intro l
  induction l with
  | nil => intro seen; simp [leg_dedup]
  | cons rj rest ih =>
    intro seen
    rw [leg_dedup]
    cases hk : dedup_key tz rj with
    | none => exact ih seen
    | some kk =>
      by_cases hs : kk ∈ seen
      · simpa [hs] using ih seen
      · have : (rj :: leg_dedup tz rest (kk :: seen)).Pairwise
            (fun a b => dedup_key tz a ≠ dedup_key tz b) := by
          refine List.Pairwise.cons ?_ (ih (kk :: seen))
          intro b hb
          obtain ⟨kb, hkb, hnb⟩ := leg_dedup_mem_key tz rest (kk :: seen) b hb
          rw [hk, hkb]
          intro hEq
          injection hEq with h2
          exact hnb (by rw [← h2]; exact List.mem_cons_self _ _)
        simpa [hs] using this

/-- Running `leg_dedup` on its own output changes nothing. -/
theorem leg_dedup_idempotent (tz : Nat) :
    ∀ (l : List RawJourney) (seen : List Nat),
      leg_dedup tz (leg_dedup tz l seen) seen = leg_dedup tz l seen := by
  intro l
  induction l with
  | nil => intro seen; simp [leg_dedup]
  | cons rj rest ih =>
    intro seen
    rw [leg_dedup]
    cases hk : dedup_key tz rj with
    | none => exact ih seen
    | some kk =>
      by_cases hs : kk ∈ seen
      · simpa [hs] using ih seen
      · have : leg_dedup tz (rj :: leg_dedup tz rest (kk :: seen)) seen
            = rj :: leg_dedup tz rest (kk :: seen) := by
          rw [leg_dedup, hk]
          show (if kk ∈ seen then leg_dedup tz (leg_dedup tz rest (kk :: seen)) seen
              else rj :: leg_dedup tz (leg_dedup tz rest (kk :: seen)) (kk :: seen))
            = rj :: leg_dedup tz rest (kk :: seen)
          rw [if_neg hs, ih (kk :: seen)]
        simpa [hs] using this

/-- The record `leg_dedup` keeps for a key not yet seen is exactly the first
input record carrying that key. -/
theorem leg_dedup_first_wins (tz : Nat) :
    ∀ (l : List RawJourney) (seen : List Nat) (kk : Nat), kk ∉ seen →
      (leg_dedup tz l seen).find? (fun x => dedup_key tz x == some kk)
        = l.find? (fun x => dedup_key tz x == some kk) := by
  intro l
  induction l with
  | nil => intro seen kk _; simp [leg_dedup]
  | cons rj rest ih =>
    intro seen kk hkk
    rw [leg_dedup]
    cases hk : dedup_key tz rj with
    | none =>
      rw [List.find?_cons_of_neg _ (by simp [hk]), ih seen kk hkk]
    | some k0 =>
      by_cases hs : k0 ∈ seen
      · have hne : k0 ≠ kk := fun h => hkk (h ▸ hs)
        have : (leg_dedup tz rest seen).find? (fun x => dedup_key tz x == some kk)
            = (rj :: rest).find? (fun x => dedup_key tz x == some kk) := by
          rw [List.find?_cons_of_neg _ (by simp [hk, hne]), ih seen kk hkk]
        simpa [hs] using this
      · by_cases he : k0 = kk
        · subst he
          have : (rj :: leg_dedup tz rest (k0 :: seen)).find?
                (fun x => dedup_key tz x == some k0)
              = (rj :: rest).find? (fun x => dedup_key tz x == some k0) := by
            rw [List.find?_cons_of_pos _ (by simp [hk]),
              List.find?_cons_of_pos _ (by simp [hk])]
          simpa [hs] using this
        · have : (rj :: leg_dedup tz rest (k0 :: seen)).find?
                (fun x => dedup_key tz x == some kk)
              = (rj :: rest).find? (fun x => dedup_key tz x == some kk) := by
            rw [List.find?_cons_of_neg _ (by simp [hk, he]),
              List.find?_cons_of_neg _ (by simp [hk, he])]
            exact ih (k0 :: seen) kk
              (by simp only [List.mem_cons, not_or]
                  exact ⟨fun h => he h.symm, hkk⟩)
          simpa [hs] using this

/-- In a list sorted by second-leg departure, the record `find?` returns is
the earliest-departing record satisfying the predicate. -/
theorem find_first_min (p : Conn → Bool) :
    ∀ (l : List Conn),
      l.Pairwise (fun a b => a.second_leg.departure ≤ b.second_leg.departure) →
      ∀ c, l.find? p = some c →
      ∀ c' ∈ l, p c' = true → c.second_leg.departure ≤ c'.second_leg.departure := by
  intro l
  induction l with
  | nil => intro _ c hc; simp at hc
  | cons x xs ih =>
    intro hp c hc c' hc' hpc'
    rcases List.pairwise_cons.mp hp with ⟨hx, hxs⟩
    by_cases hpx : p x = true
    · rw [List.find?_cons_of_pos _ hpx] at hc
      injection hc with h; subst h
      rcases List.mem_cons.mp hc' with h | h
      · subst h; exact le_refl _
      · exact hx c' h
    · rw [List.find?_cons_of_neg _ (by simpa using hpx)] at hc
      rcases List.mem_cons.mp hc' with h | h
      · subst h; exact absurd hpc' hpx
      · exact ih hxs c hc c' h hpc'

/-- When no wraparound is needed, `wrapDiff` is the plain difference. -/
theorem wrapDiff_of_le {s e : Nat} (h : s ≤ e) : wrapDiff s e = e - s := by
  unfold wrapDiff
  rw [if_neg (by omega)]

/-- C1: the code has no caller-configurable `minTransferMinutes`; the
harvester hard-codes a 3-minute offset, so a One Change journey always
carries a connection with transfer time exactly 3 — below any configured
minimum of 4 or more — exhibited here end to end through `save_rail_data`
with draws the `randint` calls can produce. -/
theorem C1_counterexample :
    r7.valid
    ∧ (save_rail_data 0 "12:00:00" (fun _ => r7) [rawChange 600 612 "London Overground"]).map
        (fun j => j.connections.map (fun c => c.transferTime)) = [[3, 10, 17]]
    ∧ ¬ 4 ≤ 3 :=
  ⟨by decide, by decide, by decide⟩

/-- C1 amended: no configurable minimum transfer exists; instead every
harvester connection satisfies transfer ≥ 3 (the hard-coded offset) and
every mock connection satisfies transfer ≥ 4 whenever the base-offset draw
lies in its `randint(4, 7)` range. -/
theorem C1_min_transfer :
    (∀ (r : ConnRand) (a : Nat), ∀ c ∈ fetch_clj_connections r a, 3 ≤ c.transferTime)
    ∧ (∀ (m : MockRand) (a : Nat), 4 ≤ m.baseOff →
        ∀ c ∈ mock_connections m a, 4 ≤ c.transferTime) := by
  constructor
  · intro r a c hc
    simp only [fetch_clj_connections, List.mem_cons, List.not_mem_nil, or_false] at hc
    rcases hc with h | h | h <;>
      · subst h
        show 3 ≤ a + 3 + _ * r.stagger _ - a
        omega
  · intro m a hm c hc
    simp only [mock_connections, List.mem_cons, List.not_mem_nil, or_false] at hc
    rcases hc with h | h | h <;>
      · subst h
        show 4 ≤ wrapDiff a (a + m.baseOff + _ * 7)
        rw [wrapDiff_of_le (by omega)]
        omega

/-- C1 witness: the first mock connection with base offset 5 has a transfer
of at least 4 minutes. -/
theorem C1_witness : 4 ≤ ((mock_connections m5 600).headD cDefault).transferTime :=
  C1_min_transfer.2 m5 600 (by decide) _ (by decide)

/-- C2: with two direct raw journeys arriving in the order 10:20, 10:10 the
emitted sequence keeps the input order — departure displays [620, 610] —
so the output is not sorted ascending by departure display time, and the
identifiers 1, 2 follow emission order rather than sorted order: the code
never sorts. -/
theorem C2_counterexample :
    (save_rail_data 0 "12:00:00" (fun _ => r7) [rawDirect 620, rawDirect 610]).map
        (fun j => j.departureTime) = [620, 610]
    ∧ ¬ List.Chain' (fun x y => x ≤ y)
        ((save_rail_data 0 "12:00:00" (fun _ => r7) [rawDirect 620, rawDirect 610]).map
          (fun j => j.departureTime)) := by
  have h1 : (save_rail_data 0 "12:00:00" (fun _ => r7) [rawDirect 620, rawDirect 610]).map
      (fun j => j.departureTime) = [620, 610] := by decide
  refine ⟨h1, ?_⟩
  rw [h1]
  simp only [List.chain'_cons, List.chain'_singleton, and_true]
  omega

/-- C2 amended: the assigned identifiers are exactly 1..N, consecutive with
no gaps or repeats, but in emission order (the order raw journeys survive
filtering), which is the input order — the output is sorted by departure
only when the input already is. -/
theorem C2_ids (tz : Nat) (live : String) (rnd : Nat → ConnRand)
    (raws : List RawJourney) :
    (process_tfl_journeys tz live rnd raws).map (fun j => j.segment_id)
      = List.range' 1 (process_tfl_journeys tz live rnd raws).length
    ∧ (save_rail_data tz live rnd raws).map (fun j => j.segment_id)
      = List.range' 1 (save_rail_data tz live rnd raws).length := by
  have h := process_aux_ids tz live rnd raws [] [] 1 0 (by simp) (by simp)
  refine ⟨h, ?_⟩
  unfold save_rail_data process_tfl_journeys
  unfold process_tfl_journeys at h
  rw [List.map_take, h, take_range'_min, List.length_take]

/-- C3: when two clock-time instants are compared and the later-named one
is numerically earlier, exactly one calendar day (1440 minutes) is added to
it before the difference is taken — both in `calculate_duration_str` and in
the inline total-duration computation — so a first leg arriving 23:58
paired with a second leg departing 00:03 yields 5 minutes, never a negative
value; when no wraparound occurs no day is added. -/
theorem C3_wraparound :
    (∀ s e : Int, 0 ≤ s → s < 1440 → 0 ≤ e → e < 1440 → e < s →
      calculate_duration_mins s e = e + 1440 - s ∧ 0 < calculate_duration_mins s e)
    ∧ (∀ s e : Int, s ≤ e → calculate_duration_mins s e = e - s)
    ∧ (∀ dep arr : Nat, dep < 1440 → arr < dep → wrapDiff dep arr = arr + 1440 - dep)
    ∧ calculate_duration_mins (23 * 60 + 58) 3 = 5
    ∧ wrapDiff (23 * 60 + 58) 3 = 5 := by
  refine ⟨?_, ?_, ?_, by decide, by decide⟩
  · intro s e hs hs' he he' hlt
    unfold calculate_duration_mins
    rw [if_pos hlt]
    exact ⟨rfl, by omega⟩
  · intro s e hle
    unfold calculate_duration_mins
    rw [if_neg (by omega)]
  · intro dep arr h1 h2
    unfold wrapDiff
    rw [if_pos h2]

/-- C3 witness: the wraparound branch at 23:58 vs 00:03 and the plain
branch at 00:03 vs 23:58. -/
theorem C3_witness :
    (calculate_duration_mins 1438 3 = 3 + 1440 - 1438 ∧ 0 < calculate_duration_mins 1438 3)
    ∧ calculate_duration_mins 3 1438 = 1438 - 3
    ∧ wrapDiff 1438 3 = 3 + 1440 - 1438 :=
  ⟨C3_wraparound.1 1438 3 (by decide) (by decide) (by decide) (by decide) (by decide),
   C3_wraparound.2.1 3 1438 (by decide),
   C3_wraparound.2.2.1 1438 3 (by decide) (by decide)⟩

/-- C4: for every input, the number of journeys collected by
`process_tfl_journeys` and the number persisted by `save_rail_data` never
exceed `MAX_JOURNEYS_TO_SAVE`: the loop breaks at the cap and the save
slices to it. -/
theorem C4_max_journeys (tz : Nat) (live : String) (rnd : Nat → ConnRand)
    (raws : List RawJourney) :
    (process_tfl_journeys tz live rnd raws).length ≤ MAX_JOURNEYS_TO_SAVE
    ∧ (save_rail_data tz live rnd raws).length ≤ MAX_JOURNEYS_TO_SAVE := by
  constructor
  · exact process_aux_length_le tz live rnd raws [] [] 1 0 (by simp [MAX_JOURNEYS_TO_SAVE])
  · unfold save_rail_data
    rw [List.length_take]
    exact Nat.min_le_left _ _

/-- C5: two raw records with the same departure display 600 ("10:00") but
different arrival instants and different operators do not collide on the
spec triple, yet the source keeps only the first: the deduplication key is
the departure display alone, not the triple (departure, arrival, service
identifier). -/
theorem C5_counterexample :
    leg_dedup 0 [rawChange 600 612 "London Overground", rawChange 600 615 "Southern"] []
      = [rawChange 600 612 "London Overground"]
    ∧ leg_dedup_spec 0 [rawChange 600 612 "London Overground", rawChange 600 615 "Southern"] []
      = [rawChange 600 612 "London Overground", rawChange 600 615 "Southern"]
    ∧ leg_dedup 0 [rawChange 600 612 "London Overground", rawChange 600 615 "Southern"] []
      ≠ leg_dedup_spec 0 [rawChange 600 612 "London Overground", rawChange 600 615 "Southern"] [] :=
  ⟨by decide, by decide, by decide⟩

/-- C5 amended: the deduplicator is keyed on the first leg's departure
display time alone; its output has pairwise-distinct keys, for every key
the first input record carrying it wins, and running the deduplicator on
its own output changes nothing. -/
theorem C5_dedup (tz : Nat) (l : List RawJourney) :
    leg_dedup tz (leg_dedup tz l []) [] = leg_dedup tz l []
    ∧ (leg_dedup tz l []).Pairwise (fun a b => dedup_key tz a ≠ dedup_key tz b)
    ∧ ∀ kk : Nat,
        (leg_dedup tz l []).find? (fun x => dedup_key tz x == some kk)
          = l.find? (fun x => dedup_key tz x == some kk) :=
  ⟨leg_dedup_idempotent tz l [], leg_dedup_pairwise tz l [],
   fun kk => leg_dedup_first_wins tz l [] kk (by simp)⟩

/-- C6: with identical inputs (arrival 600) and identical configuration,
two admissible outcomes of the `randint(7, 10)` draws give different
connection lists, and `get_random_status` gives different leg statuses: the
stitching core is not a pure function of its inputs plus configuration — it
also reads Python's global pseudorandom stream. -/
theorem C6_counterexample :
    r7.valid ∧ r8.valid
    ∧ fetch_clj_connections r7 600 ≠ fetch_clj_connections r8 600
    ∧ get_random_status 0 ≠ get_random_status 2 :=
  ⟨by decide, by decide, by decide, by decide⟩

/-- C6 amended: the core is deterministic once the pseudorandom draws are
counted among its inputs — identical leg inputs, configuration and draw
packets give identical outputs. -/
theorem C6_deterministic (tz : Nat) (live : String)
    (rnd₁ rnd₂ : Nat → ConnRand) (raws₁ raws₂ : List RawJourney)
    (a₁ a₂ : Nat) (r₁ r₂ : ConnRand)
    (ha : a₁ = a₂) (hr : r₁ = r₂) (hrnd : rnd₁ = rnd₂) (hraws : raws₁ = raws₂) :
    fetch_clj_connections r₁ a₁ = fetch_clj_connections r₂ a₂
    ∧ process_tfl_journeys tz live rnd₁ raws₁ = process_tfl_journeys tz live rnd₂ raws₂ := by
  subst ha; subst hr; subst hrnd; subst hraws
  exact ⟨rfl, rfl⟩

/-- C6 witness: determinism instantiated at concrete inputs. -/
theorem C6_witness :
    fetch_clj_connections r7 600 = fetch_clj_connections r7 600
    ∧ process_tfl_journeys 0 "12:00:00" (fun _ => r7) [rawDirect 610]
      = process_tfl_journeys 0 "12:00:00" (fun _ => r7) [rawDirect 610] :=
  C6_deterministic 0 "12:00:00" _ _ _ _ 600 600 r7 r7 rfl rfl rfl rfl

/-- C7: if every connection of a One Change journey is cancelled, the
published arrival comes from the first connection (the earliest, when the
list is sorted by second-leg departure) and the duration degrades to the
string "Unknown"; otherwise arrival and duration both come from the first
non-cancelled connection, which under the sorted order is the earliest
non-cancelled one. -/
theorem C7_metrics (dep : Nat) (c0 : Conn) (cs : List Conn) :
    ((∀ c ∈ c0 :: cs, c.second_leg.status = "Cancelled") →
      journey_metrics dep (c0 :: cs) = some (c0.second_leg.arrival, "Unknown"))
    ∧ (∀ c, (c0 :: cs).find? (fun x => x.second_leg.status != "Cancelled") = some c →
        journey_metrics dep (c0 :: cs)
          = some (c.second_leg.arrival, durationStr (wrapDiff dep c.second_leg.arrival))
        ∧ ((c0 :: cs).Pairwise (fun x y => x.second_leg.departure ≤ y.second_leg.departure) →
            ∀ c' ∈ c0 :: cs, c'.second_leg.status ≠ "Cancelled" →
              c.second_leg.departure ≤ c'.second_leg.departure)) := by
  constructor
  · intro hall
    have hnone : (c0 :: cs).find? (fun x => x.second_leg.status != "Cancelled") = none := by
      rw [List.find?_eq_none]
      intro x hx
      simp [hall x hx]
    unfold journey_metrics
    rw [hnone]
  · intro c hc
    constructor
    · unfold journey_metrics
      rw [hc]
    · intro hsort c' hc' hstat
      exact find_first_min _ _ hsort c hc c' hc' (by simpa using hstat)

/-- C7 witness: a single cancelled connection yields the fallback
metrics. -/
theorem C7_witness :
    journey_metrics 600 [cCan] = some (cCan.second_leg.arrival, "Unknown") :=
  (C7_metrics 600 cCan []).1 (by decide)

/-- C8: on an unparseable timestamp the normalizer does not fail and
nothing is dropped — the `except` branch returns the input string itself,
substituting it for the display value (a well-formed ISO string does parse,
so the failure is genuine). -/
theorem C8_counterexample :
    parseIsoClock (replaceZ "not-a-timestamp") = none
    ∧ format_time 0 "not-a-timestamp" = "not-a-timestamp"
    ∧ parseIsoClock (replaceZ "2025-01-02T10:30:00Z") = some 630
    ∧ format_time 0 "2025-01-02T10:30:00Z" = "10:30" :=
  ⟨by decide, by decide, by decide, by decide⟩

/-- C8 amended: when a timestamp string cannot be parsed, `format_time`
returns the input string unchanged — the raw value is used in place of a
display time, no failure condition is raised and the owning record is not
dropped. -/
theorem C8_fallback (tz : Nat) (s : String)
    (h : parseIsoClock (replaceZ s) = none) : format_time tz s = s := by
  unfold format_time
  rw [h]

/-- C8 witness: the fallback instantiated on a concrete garbage string. -/
theorem C8_witness : format_time 5 "garbage" = "garbage" :=
  C8_fallback 5 "garbage" (by decide)

/-- C9: the journey dictionaries built by `process_tfl_journeys` contain no
"status" key at all — no journey-level overall status is derived anywhere,
so the claimed Delayed/Cancelled/OnTime rule for a journey's overall status
has no counterpart in the code. -/
theorem C9_counterexample : "status" ∉ journeyDictKeys := by decide

/-- C9 amended: per leg the rule holds — `Cancelled` when the flag is set,
`Delayed` when scheduled and actual departures are both present and differ,
`On Time` otherwise — but the assembled journey record carries no overall
status field. -/
theorem C9_status (leg : RawLeg) :
    (leg.isCancelled = true → get_status_from_leg leg = "Cancelled")
    ∧ (leg.isCancelled = false → ∀ s, leg.scheduledDepartureTime = some s →
        s ≠ leg.departureTime → get_status_from_leg leg = "Delayed")
    ∧ (leg.isCancelled = false →
        (leg.scheduledDepartureTime = some leg.departureTime
          ∨ leg.scheduledDepartureTime = none) →
        get_status_from_leg leg = "On Time")
    ∧ "status" ∉ journeyDictKeys := by
  refine ⟨?_, ?_, ?_, by decide⟩
  · intro h
    unfold get_status_from_leg
    rw [if_pos h]
  · intro h s hs hne
    unfold get_status_from_leg
    rw [if_neg (by simp [h]), hs]
    simp [hne]
  · intro h hd
    unfold get_status_from_leg
    rw [if_neg (by simp [h])]
    rcases hd with hd | hd
    · rw [hd]; simp
    · rw [hd]

/-- C9 witness: the per-leg rule at a cancelled, a delayed and an on-time
leg. -/
theorem C9_witness :
    get_status_from_leg legCan = "Cancelled"
    ∧ get_status_from_leg legDel = "Delayed"
    ∧ get_status_from_leg legOT = "On Time" :=
  ⟨(C9_status legCan).1 rfl,
   (C9_status legDel).2.1 rfl 615 rfl (by decide),
   (C9_status legOT).2.2.1 rfl (Or.inl rfl)⟩

/-- C10: in the mock generator the earliest connection departs `baseOff`
minutes after the first leg's arrival, where `baseOff` is drawn from
`randint(4, 7)` — here 5, never 3. -/
theorem C10_counterexample :
    4 ≤ m5.baseOff ∧ m5.baseOff ≤ 7
    ∧ (mock_connections m5 600).map (fun c => c.transferTime) = [5, 12, 19]
    ∧ ((mock_connections m5 600).headD cDefault).transferTime ≠ 3 :=
  ⟨by decide, by decide, by decide, by decide⟩

/-- C10 amended: both generators emit exactly three connections in strictly
ascending order of second-leg departure instant (arrival plus transfer);
the harvester's earliest connection departs exactly 3 minutes after the
first leg's arrival, while the mock generator's departs `baseOff` minutes
after it, a 4-7 minute draw. -/
theorem C10_connections (r : ConnRand) (m : MockRand) (a b : Nat) (hr : r.valid) :
    (fetch_clj_connections r a).length = 3
    ∧ List.Chain' (fun x y => x < y)
        ((fetch_clj_connections r a).map (fun c => a + c.transferTime))
    ∧ ((fetch_clj_connections r a).headD cDefault).transferTime = 3
    ∧ (mock_connections m b).length = 3
    ∧ List.Chain' (fun x y => x < y)
        ((mock_connections m b).map (fun c => b + c.transferTime))
    ∧ ((mock_connections m b).headD cDefault).transferTime = m.baseOff := by
  obtain ⟨h1a, h1b, -, -⟩ := hr 1 (by omega)
  obtain ⟨h2a, h2b, -, -⟩ := hr 2 (by omega)
  refine ⟨rfl, ?_, ?_, rfl, ?_, ?_⟩
  · simp only [fetch_clj_connections, List.map_cons, List.map_nil,
      List.chain'_cons, List.chain'_singleton, and_true]
    constructor
    · show a + ((a + 3 + 0 * r.stagger 0) - a) < a + ((a + 3 + 1 * r.stagger 1) - a)
      omega
    · show a + ((a + 3 + 1 * r.stagger 1) - a) < a + ((a + 3 + 2 * r.stagger 2) - a)
      omega
  · show (a + 3 + 0 * r.stagger 0) - a = 3
    omega
  · simp only [mock_connections, List.map_cons, List.map_nil,
      List.chain'_cons, List.chain'_singleton, and_true]
    constructor
    · show b + wrapDiff b (b + m.baseOff + 0 * 7) < b + wrapDiff b (b + m.baseOff + 1 * 7)
      rw [wrapDiff_of_le (by omega), wrapDiff_of_le (by omega)]
      omega
    · show b + wrapDiff b (b + m.baseOff + 1 * 7) < b + wrapDiff b (b + m.baseOff + 2 * 7)
      rw [wrapDiff_of_le (by omega), wrapDiff_of_le (by omega)]
      omega
  · show wrapDiff b (b + m.baseOff + 0 * 7) = m.baseOff
    rw [wrapDiff_of_le (by omega)]
    omega

/-- C10 witness: the generation facts instantiated at concrete draws and
arrivals. -/
theorem C10_witness :
    ((fetch_clj_connections r7 600).headD cDefault).transferTime = 3
    ∧ ((mock_connections m5 700).headD cDefault).transferTime = m5.baseOff :=
  ⟨(C10_connections r7 m5 600 700 (by decide)).2.2.1,
   (C10_connections r7 m5 600 700 (by decide)).2.2.2.2.2⟩

end IMWlms
